import Mathlib

/-!
Shallow embedding of the GaryCooper chicken-coop controller orchestration
file (the Arduino sketch containing `setup`, `loop`, `saveSettings`,
`loadSettings`, `reportError` and `sendErrors`), together with theorems
settling the specification claims about it.

Machine integers are modelled as `Nat` with explicit 16-bit masking where
the C++ code operates on a `uint16_t`.  External collaborators (the GPS
parser, the sun calculator, the door/light/beep controllers, the telemetry
framer and the save controller) are modelled by the effects the
orchestration file requests of them, recorded as events in a trace.
-/

namespace GaryCooper

/-- Modelled from the spec: `MilliTimer.h` is not in the repository; the
spec states all timer periods in milliseconds (5000 ms, 60000 ms, 2000 ms),
so `MILLIS_PER_SECOND` is 1000. -/
def MILLIS_PER_SECOND : Nat := 1000

/-- `#define TIME_CHECK_UPDATE_NO_GPS_LOCK (5 * MILLIS_PER_SECOND)`. -/
def TIME_CHECK_UPDATE_NO_GPS_LOCK : Nat := 5 * MILLIS_PER_SECOND

/-- `#define TIME_CHECK_UPDATE_GPS_LOCK (60 * MILLIS_PER_SECOND)`. -/
def TIME_CHECK_UPDATE_GPS_LOCK : Nat := 60 * MILLIS_PER_SECOND

/-- `#define TELEMETRY_UPDATE (2 * MILLIS_PER_SECOND)`. -/
def TELEMETRY_UPDATE : Nat := 2 * MILLIS_PER_SECOND

/-- `#define GARYCOOPER_DATA_VERSION (1)` from `GaryCooper.h`. -/
def GARYCOOPER_DATA_VERSION : Int := 1

/-- The error kinds handled by `reportError`'s switch statement. -/
inductive telemetryErrorE where
  | GPS_no_data
  | GPS_bad_data
  | GPS_not_locked
  | suncalc_invalid_time
  | no_door_motor
  | door_motor_unknown_state
  | door_motor_unknown_not_responding
deriving DecidableEq, Repr, Fintype

/-- Modelled from the spec: `TelemetryTags.h` (which assigns the numeric
values of the `telemetryErrorE` enumerators) is not in the repository; the
spec states that each error kind maps to a distinct bit position packed
into one fixed-width word, so each kind is assigned a distinct bit. -/
def telemetryErrorE.bit : telemetryErrorE → Nat
  | .GPS_no_data => 0
  | .GPS_bad_data => 1
  | .GPS_not_locked => 2
  | .suncalc_invalid_time => 3
  | .no_door_motor => 4
  | .door_motor_unknown_state => 5
  | .door_motor_unknown_not_responding => 6

/-- The numeric value of an error tag: the single-bit mask it contributes
to `s_errorFlags`. -/
def telemetryErrorE.mask (k : telemetryErrorE) : Nat := 2 ^ k.bit

/-- The beep repeat count assigned to each error kind by the switch
statement in `reportError`. -/
def telemetryErrorE.beepCount : telemetryErrorE → Nat
  | .GPS_no_data => 1
  | .GPS_bad_data => 2
  | .GPS_not_locked => 3
  | .suncalc_invalid_time => 4
  | .no_door_motor => 5
  | .door_motor_unknown_state => 6
  | .door_motor_unknown_not_responding => 7

/-- The observable side effects of one `reportError` call: the diagnostic
line printed to the debug console (kind and whether it was set or cleared),
and the audible alert requested from the beep controller (its repeat
count).  `BEEP_ON_ERROR` is not defined in the repository headers that are
present; following the spec (which states a kind-specific audible alert is
triggered on every actual set-transition) it is taken as defined. -/
structure ErrEffects where
  emission : Option (telemetryErrorE × Bool)
  beep : Option Nat
deriving DecidableEq, Repr

/-- No side effect: the early-return paths of `reportError`. -/
def ErrEffects.none : ErrEffects := ⟨Option.none, Option.none⟩

/-- `reportError(telemetryErrorE _errorTag, bool _set)`: the edge-triggered
error register.  Takes the current `s_errorFlags` word, returns the new
word and the side effects.  `s_errorFlags &= ~_errorTag` on a `uint16_t`
is `flags &&& (0xFFFF ^^^ mask)`. -/
def reportError (flags : Nat) (k : telemetryErrorE) (set : Bool) :
    Nat × ErrEffects :=
  if set then
    if flags &&& k.mask ≠ 0 then
      (flags, ErrEffects.none)
    else
      (flags ||| k.mask, ⟨some (k, true), some k.beepCount⟩)
  else
    if flags &&& k.mask = 0 then
      (flags, ErrEffects.none)
    else
      (flags &&& (0xFFFF ^^^ k.mask), ⟨some (k, false), Option.none⟩)

/-- Whether bit `k` of the error word is set, read the way the code reads
it: `s_errorFlags & _errorTag`. -/
def bitSet (flags : Nat) (k : telemetryErrorE) : Bool :=
  flags &&& k.mask != 0

/-- Fold a sequence of `reportError` calls over the flags word. -/
def runReports (flags : Nat) : List (telemetryErrorE × Bool) → Nat
  | [] => flags
  | e :: es => runReports (reportError flags e.1 e.2).1 es

/-- The assertion value of the last report for kind `k` in the sequence,
if any. -/
def lastReport (k : telemetryErrorE) :
    List (telemetryErrorE × Bool) → Option Bool
  | [] => none
  | e :: es =>
      match lastReport k es with
      | some b => some b
      | none => if e.1 = k then some e.2 else none

theorem bit_lt_16 (k : telemetryErrorE) : k.bit < 16 := by
  cases k <;> decide

theorem bit_injective (k k' : telemetryErrorE)
    (h : k.bit = k'.bit) : k = k' := by
  cases k <;> cases k' <;> first | rfl | exact absurd h (by decide)

theorem bitSet_eq_testBit (flags : Nat) (k : telemetryErrorE) :
    bitSet flags k = flags.testBit k.bit := by
  rw [bitSet, telemetryErrorE.mask, Nat.and_two_pow]
  cases hb : flags.testBit k.bit
  · simp
  · simp [(Nat.two_pow_pos k.bit).ne']

theorem land_mask_eq_zero_iff (flags : Nat) (k : telemetryErrorE) :
    (flags &&& k.mask = 0) ↔ flags.testBit k.bit = false := by
  rw [telemetryErrorE.mask, Nat.and_two_pow]
  cases hb : flags.testBit k.bit
  · simp
  · simp [(Nat.two_pow_pos k.bit).ne']

theorem testBit_FFFF (k : telemetryErrorE) :
    (0xFFFF : Nat).testBit k.bit = true := by
  have he : (0xFFFF : Nat) = 2 ^ 16 - 1 := by norm_num
  rw [he, Nat.testBit_two_pow_sub_one]
  simpa using bit_lt_16 k

/-- Effect of one `reportError` call on an arbitrary bit of the word:
kind `k'` is set to the reported value, every other kind's bit is
untouched. -/
theorem testBit_reportError (flags : Nat) (k k' : telemetryErrorE)
    (b : Bool) :
    ((reportError flags k' b).1).testBit k.bit =
      if k' = k then b else flags.testBit k.bit := by
  rw [reportError]
  by_cases hkk : k' = k
  · subst hkk
    cases b
    · simp only [Bool.false_eq_true, if_false, if_pos rfl]
      by_cases h0 : flags &&& k'.mask = 0
      · simpa [h0] using (land_mask_eq_zero_iff flags k').mp h0
      · simp only [if_neg h0]
        simp [telemetryErrorE.mask, Nat.testBit_land, Nat.testBit_xor,
          Nat.testBit_two_pow, testBit_FFFF]
    · simp only [if_true, if_pos rfl]
      by_cases h0 : flags &&& k'.mask = 0
      · simp only [h0, ne_eq, not_true_eq_false, if_false]
        simp [telemetryErrorE.mask, Nat.testBit_lor, Nat.testBit_two_pow]
      · have hne : flags &&& k'.mask ≠ 0 := h0
        simp only [ne_eq, hne, not_false_eq_true, if_true]
        cases hb : flags.testBit k'.bit
        · exact absurd ((land_mask_eq_zero_iff flags k').mpr hb) h0
        · rfl
  · have hbit : k'.bit ≠ k.bit := fun h => hkk (bit_injective k' k h)
    simp only [if_neg hkk]
    cases b
    · simp only [Bool.false_eq_true, if_false]
      by_cases h0 : flags &&& k'.mask = 0
      · simp [h0]
      · simp only [if_neg h0]
        simp [telemetryErrorE.mask, Nat.testBit_land, Nat.testBit_xor,
          Nat.testBit_two_pow, testBit_FFFF k, hbit]
    · simp only [if_true]
      by_cases h0 : flags &&& k'.mask = 0
      · simp only [h0, ne_eq, not_true_eq_false, if_false]
        simp [telemetryErrorE.mask, Nat.testBit_lor, Nat.testBit_two_pow, hbit]
      · have hne : flags &&& k'.mask ≠ 0 := h0
        simp only [ne_eq, hne, not_false_eq_true, if_true]

/-- The same fact phrased through `bitSet`. -/
theorem bitSet_reportError (flags : Nat) (k k' : telemetryErrorE)
    (b : Bool) :
    bitSet (reportError flags k' b).1 k =
      if k' = k then b else bitSet flags k := by
  rw [bitSet_eq_testBit, bitSet_eq_testBit, testBit_reportError]

theorem bitSet_false_iff (flags : Nat) (k : telemetryErrorE) :
    bitSet flags k = false ↔ flags &&& k.mask = 0 := by
  rw [bitSet]
  simp

theorem bitSet_true_iff (flags : Nat) (k : telemetryErrorE) :
    bitSet flags k = true ↔ flags &&& k.mask ≠ 0 := by
  rw [bitSet]
  simp

/-- Re-asserting an already-set bit is the first early return. -/
theorem reportError_set_noop (flags : Nat) (k : telemetryErrorE)
    (h : bitSet flags k = true) :
    reportError flags k true = (flags, ErrEffects.none) := by
  rw [reportError, if_pos rfl, if_pos ((bitSet_true_iff flags k).mp h)]

/-- Re-clearing an already-clear bit is the second early return. -/
theorem reportError_clear_noop (flags : Nat) (k : telemetryErrorE)
    (h : bitSet flags k = false) :
    reportError flags k false = (flags, ErrEffects.none) := by
  rw [reportError]
  simp only [Bool.false_eq_true, if_false]
  rw [if_pos ((bitSet_false_iff flags k).mp h)]

/-- An actual set-transition ors the mask in, emits a diagnostic line and
requests the kind-specific beep. -/
theorem reportError_set_trans (flags : Nat) (k : telemetryErrorE)
    (h : bitSet flags k = false) :
    reportError flags k true =
      (flags ||| k.mask, ⟨some (k, true), some k.beepCount⟩) := by
  rw [reportError, if_pos rfl]
  have h0 := (bitSet_false_iff flags k).mp h
  simp [h0]

/-- An actual clear-transition masks the bit out and emits a diagnostic
line without a beep. -/
theorem reportError_clear_trans (flags : Nat) (k : telemetryErrorE)
    (h : bitSet flags k = true) :
    reportError flags k false =
      (flags &&& (0xFFFF ^^^ k.mask), ⟨some (k, false), Option.none⟩) := by
  rw [reportError]
  simp only [Bool.false_eq_true, if_false]
  rw [if_neg ((bitSet_true_iff flags k).mp h)]

theorem runReports_lastReport_none (k : telemetryErrorE) :
    ∀ (es : List (telemetryErrorE × Bool)) (flags : Nat),
      lastReport k es = none →
      bitSet (runReports flags es) k = bitSet flags k := by
  intro es
  induction es with
  | nil => intro flags _; rfl
  | cons e es ih =>
      intro flags h
      rw [lastReport] at h
      cases h' : lastReport k es with
      | some b => rw [h'] at h; exact absurd h (by simp)
      | none =>
          rw [h'] at h
          have hek : e.1 ≠ k := by
            intro hc
            rw [if_pos hc] at h
            exact absurd h (by simp)
          rw [runReports, ih _ h', bitSet_reportError, if_neg hek]

theorem runReports_lastReport (k : telemetryErrorE) :
    ∀ (es : List (telemetryErrorE × Bool)) (flags : Nat) (b : Bool),
      lastReport k es = some b →
      bitSet (runReports flags es) k = b := by
  intro es
  induction es with
  | nil => intro flags b h; exact absurd h (by simp [lastReport])
  | cons e es ih =>
      intro flags b h
      rw [lastReport] at h
      cases h' : lastReport k es with
      | some b' =>
          rw [h'] at h
          cases h
          exact ih _ _ h'
      | none =>
          rw [h'] at h
          by_cases hek : e.1 = k
          · rw [if_pos hek] at h
            cases h
            rw [runReports, runReports_lastReport_none k es _ h',
              bitSet_reportError, if_pos hek]
          · rw [if_neg hek] at h
            exact absurd h (by simp)

/-- C1: the error register's report operation is edge-triggered and
idempotent.  Starting from a clear bit, `report(k, true)` sets the bit and
emits one diagnostic, and an immediate second `report(k, true)` is a
no-op with no further emission; `report(k, false)` on a clear bit returns
immediately with no state change and no emission; and after any sequence
of report calls, bit `k` holds exactly the value last reported for `k`. -/
theorem reportError_edge_triggered_idempotent (flags : Nat)
    (k : telemetryErrorE) :
    (bitSet flags k = false →
      bitSet (reportError flags k true).1 k = true ∧
      (reportError flags k true).2.emission = some (k, true) ∧
      reportError (reportError flags k true).1 k true =
        ((reportError flags k true).1, ErrEffects.none)) ∧
    (bitSet flags k = false →
      reportError flags k false = (flags, ErrEffects.none)) ∧
    (∀ (es : List (telemetryErrorE × Bool)) (b : Bool),
      lastReport k es = some b → bitSet (runReports flags es) k = b) := by
  refine ⟨fun h => ?_, reportError_clear_noop flags k,
    fun es b hb => runReports_lastReport k es flags b hb⟩
  have hset : bitSet (reportError flags k true).1 k = true := by
    rw [bitSet_reportError, if_pos rfl]
  refine ⟨hset, ?_, reportError_set_noop _ k hset⟩
  rw [reportError_set_trans flags k h]

/-- Closed instance of `reportError_edge_triggered_idempotent` at concrete
inputs, every hypothesis discharged by evaluation. -/
theorem reportError_edge_triggered_idempotent_witness :
    (bitSet 5 .GPS_bad_data = false ∧
      bitSet (reportError 5 .GPS_bad_data true).1 .GPS_bad_data = true ∧
      (reportError 5 .GPS_bad_data true).2.emission =
        some (.GPS_bad_data, true) ∧
      reportError (reportError 5 .GPS_bad_data true).1 .GPS_bad_data true =
        ((reportError 5 .GPS_bad_data true).1, ErrEffects.none)) ∧
    reportError 5 .GPS_bad_data false = (5, ErrEffects.none) ∧
    bitSet (runReports 5
      [(.GPS_bad_data, true), (.GPS_no_data, true), (.GPS_bad_data, false)])
      .GPS_bad_data = false := by
  refine ⟨⟨by decide, ?_⟩, ?_, ?_⟩
  · exact (reportError_edge_triggered_idempotent 5 .GPS_bad_data).1 (by decide)
  · exact (reportError_edge_triggered_idempotent 5 .GPS_bad_data).2.1
      (by decide)
  · exact (reportError_edge_triggered_idempotent 5 .GPS_bad_data).2.2
      [(.GPS_bad_data, true), (.GPS_no_data, true), (.GPS_bad_data, false)]
      false (by decide)

/-- C4: an actual set-transition updates the bitmask, emits a diagnostic
line and triggers the kind-specific audible alert, whose repeat count is
unique per error kind; an actual clear-transition updates the bitmask and
emits a diagnostic line but triggers no audible alert. -/
theorem reportError_beep_on_set_transition (flags : Nat)
    (k : telemetryErrorE) :
    (bitSet flags k = false →
      (reportError flags k true).2.beep = some k.beepCount ∧
      (reportError flags k true).2.emission = some (k, true) ∧
      bitSet (reportError flags k true).1 k = true) ∧
    (bitSet flags k = true →
      (reportError flags k false).2.beep = Option.none ∧
      (reportError flags k false).2.emission = some (k, false) ∧
      bitSet (reportError flags k false).1 k = false) ∧
    (∀ k1 k2 : telemetryErrorE, k1.beepCount = k2.beepCount → k1 = k2) := by
  refine ⟨fun h => ?_, fun h => ?_, by decide⟩
  · rw [reportError_set_trans flags k h]
    refine ⟨rfl, rfl, ?_⟩
    have := bitSet_reportError flags k k true
    rw [reportError_set_trans flags k h] at this
    rw [this, if_pos rfl]
  · rw [reportError_clear_trans flags k h]
    refine ⟨rfl, rfl, ?_⟩
    have := bitSet_reportError flags k k false
    rw [reportError_clear_trans flags k h] at this
    rw [this, if_pos rfl]

/-- Closed instance of `reportError_beep_on_set_transition` at concrete
inputs, every hypothesis discharged by evaluation. -/
theorem reportError_beep_on_set_transition_witness :
    ((reportError 0 .no_door_motor true).2.beep = some 5 ∧
      (reportError 0 .no_door_motor true).2.emission =
        some (.no_door_motor, true) ∧
      bitSet (reportError 0 .no_door_motor true).1 .no_door_motor = true) ∧
    ((reportError 16 .no_door_motor false).2.beep = Option.none ∧
      (reportError 16 .no_door_motor false).2.emission =
        some (.no_door_motor, false) ∧
      bitSet (reportError 16 .no_door_motor false).1 .no_door_motor =
        false) ∧
    telemetryErrorE.GPS_not_locked = .GPS_not_locked := by
  refine ⟨?_, ?_, ?_⟩
  · exact (reportError_beep_on_set_transition 0 .no_door_motor).1 (by decide)
  · exact (reportError_beep_on_set_transition 16 .no_door_motor).2.1
      (by decide)
  · exact (reportError_beep_on_set_transition 0 .no_door_motor).2.2
      .GPS_not_locked .GPS_not_locked rfl

/-- Events the settings routines request of the save controller and of the
door/light collaborators, in call order. -/
inductive SettingsEvent where
  | updateHeader (v : Int)
  | rewind
  | saveDoor (defaults : Bool)
  | saveLight (defaults : Bool)
  | loadDoor
  | loadLight
deriving DecidableEq, Repr

/-- The persistent store as the orchestration file observes it: the stored
data-version byte (read by `getDataVersion`, written by `updateHeader`).
The sub-component regions are owned by the door and light collaborators
and are not inspected by the orchestration file. -/
structure Store where
  storedVersion : Int
deriving DecidableEq, Repr

/-- `saveSettings(bool _defaults)`: update the header to the compiled-in
data version, rewind, then let the door and then the light controller
serialize themselves.  Returns the updated store and the call trace. -/
def saveSettings (st : Store) (defaults : Bool) :
    Store × List SettingsEvent :=
  let st := { st with storedVersion := GARYCOOPER_DATA_VERSION }
  (st, [.updateHeader GARYCOOPER_DATA_VERSION, .rewind,
        .saveDoor defaults, .saveLight defaults])

/-- `loadSettings()`: read the stored version; if it differs from
`GARYCOOPER_DATA_VERSION`, call `saveSettings(true)`; then rewind and let
the door and then the light controller deserialize themselves. -/
def loadSettings (st : Store) : Store × List SettingsEvent :=
  let headerVersion := st.storedVersion
  let p :=
    if headerVersion ≠ GARYCOOPER_DATA_VERSION then saveSettings st true
    else (st, [])
  (p.1, p.2 ++ [.rewind, .loadDoor, .loadLight])

/-- The events of the default-write pass: a sub-component serializing. -/
def SettingsEvent.isDefaultWrite : SettingsEvent → Bool
  | .saveDoor _ => true
  | .saveLight _ => true
  | _ => false

/-- The events in which a sub-component deserializes a value. -/
def SettingsEvent.isDeserialize : SettingsEvent → Bool
  | .loadDoor => true
  | .loadLight => true
  | _ => false

/-- C2: the load path invokes the default-write pass iff the stored
version differs from the compiled-in constant, and when invoked the pass
(door and light both serializing defaults) completes before any
sub-component deserializes a value; on a version match no default write
occurs. -/
theorem loadSettings_default_write_iff (st : Store) :
    (st.storedVersion = GARYCOOPER_DATA_VERSION →
      ∀ e ∈ (loadSettings st).2, e.isDefaultWrite = false) ∧
    (st.storedVersion ≠ GARYCOOPER_DATA_VERSION →
      ∃ pre post, (loadSettings st).2 = pre ++ post ∧
        SettingsEvent.saveDoor true ∈ pre ∧
        SettingsEvent.saveLight true ∈ pre ∧
        (∀ e ∈ pre, e.isDeserialize = false) ∧
        (∀ e ∈ post, e.isDefaultWrite = false)) := by
  constructor
  · intro h e he
    rw [loadSettings] at he
    simp only [h, ne_eq, not_true_eq_false, if_false] at he
    simp only [List.nil_append, List.mem_cons, List.not_mem_nil,
      or_false] at he
    rcases he with rfl | rfl | rfl <;> rfl
  · intro h
    refine ⟨[.updateHeader GARYCOOPER_DATA_VERSION, .rewind,
      .saveDoor true, .saveLight true], [.rewind, .loadDoor, .loadLight],
      ?_, by decide, by decide, by decide, by decide⟩
    rw [loadSettings]
    simp [saveSettings, h]

/-- Closed instance of `loadSettings_default_write_iff`: a matching store
(version 1) yields no default write, a mismatching store (version 0)
yields the bracketed default-write pass. -/
theorem loadSettings_default_write_iff_witness :
    SettingsEvent.isDefaultWrite .rewind = false ∧
    (∃ pre post, (loadSettings ⟨0⟩).2 = pre ++ post ∧
      SettingsEvent.saveDoor true ∈ pre ∧
      SettingsEvent.saveLight true ∈ pre ∧
      (∀ e ∈ pre, e.isDeserialize = false) ∧
      (∀ e ∈ post, e.isDefaultWrite = false)) :=
  ⟨(loadSettings_default_write_iff ⟨1⟩).1 (by decide) .rewind (by decide),
   (loadSettings_default_write_iff ⟨0⟩).2 (by decide)⟩

/-- C10: every save pass writes the compiled-in version into the header
first, then rewinds and serializes door then light — the order in which
load deserializes them; after any completed load the stored version equals
the compiled-in constant, so an immediately following load performs no
default write. -/
theorem saveSettings_header_then_reload_clean (st : Store) (d : Bool) :
    (saveSettings st d).2 =
      [.updateHeader GARYCOOPER_DATA_VERSION, .rewind,
       .saveDoor d, .saveLight d] ∧
    ((loadSettings st).2).filter SettingsEvent.isDeserialize =
      [.loadDoor, .loadLight] ∧
    ((loadSettings st).1).storedVersion = GARYCOOPER_DATA_VERSION ∧
    (∀ e ∈ (loadSettings ((loadSettings st).1)).2,
      e.isDefaultWrite = false) := by
  refine ⟨rfl, ?_, ?_, ?_⟩
  · by_cases h : st.storedVersion = GARYCOOPER_DATA_VERSION
    · rw [loadSettings]
      simp only [h, ne_eq, not_true_eq_false, if_false]
      decide
    · rw [loadSettings]
      simp only [ne_eq, h, not_false_eq_true, if_true, saveSettings]
      decide
  · by_cases h : st.storedVersion = GARYCOOPER_DATA_VERSION
    · rw [loadSettings]
      simp [h]
    · rw [loadSettings]
      simp [saveSettings, h]
  · intro e he
    have hv : ((loadSettings st).1).storedVersion =
        GARYCOOPER_DATA_VERSION := by
      by_cases h : st.storedVersion = GARYCOOPER_DATA_VERSION
      · rw [loadSettings]; simp [h]
      · rw [loadSettings]; simp [saveSettings, h]
    exact (loadSettings_default_write_iff _).1 hv e he

/-- Closed instance of `saveSettings_header_then_reload_clean` at a
mismatching store, the inner hypothesis discharged by evaluation. -/
theorem saveSettings_header_then_reload_clean_witness :
    (saveSettings ⟨7⟩ true).2 =
      [.updateHeader GARYCOOPER_DATA_VERSION, .rewind,
       .saveDoor true, .saveLight true] ∧
    SettingsEvent.isDefaultWrite .loadDoor = false :=
  ⟨(saveSettings_header_then_reload_clean ⟨7⟩ true).1,
   (saveSettings_header_then_reload_clean ⟨7⟩ true).2.2.2 .loadDoor
     (by decide)⟩

/-- Modelled from the spec: `MilliTimer.h` is not in the repository; the
spec's timer holds a deadline set by `start` (deadline = now + duration)
and is polled: it reads expired iff now has reached the deadline. -/
structure MilliTimer where
  deadline : Nat
deriving DecidableEq, Repr

/-- `CMilliTimer::start(duration)` at clock value `now`. -/
def MilliTimer.start (now duration : Nat) : MilliTimer :=
  ⟨now + duration⟩

/-- `getState() == CMilliTimer::expired` at clock value `now`. -/
def MilliTimer.expired (t : MilliTimer) (now : Nat) : Bool :=
  decide (t.deadline ≤ now)

/-- Modelled from the spec: the external GPS parser's fix state exposes a
lock boolean (`m_GPSLocked`) and a `clear()` that resets stale state. -/
structure GPSData where
  m_GPSLocked : Bool
deriving DecidableEq, Repr

/-- `CGPSParserData::clear()`: reset stale fix state, dropping the lock. -/
def GPSData.clear (_ : GPSData) : GPSData := ⟨false⟩

/-- The values the loop passes to `CTelemetry::sendTerm`.  Modelled from
the spec where `TelemetryTags.h` is absent: the tag and version
enumerators are opaque distinct values; the error-flag word is the scalar
the loop reads from `s_errorFlags`. -/
inductive TelemetryTerm where
  | tag_version
  | version01
  | tag_error_flags
  | errorFlags (flags : Nat)
deriving DecidableEq, Repr

/-- One observable action `loop()` requests of a collaborator, in program
order. -/
inductive LoopEvent where
  | settings (e : SettingsEvent)
  | parseChunk (chunk : List Nat)
  | commTick
  | telemetryTick
  | beepTick
  | doorTick
  | heartbeatWrite (isOn : Bool)
  | transmissionStart
  | sendTerm (t : TelemetryTerm)
  | transmissionEnd
  | sunCalcTelemetry
  | doorTelemetry
  | lightTelemetry
  | gpsDataClear
  | beep (count : Nat)
  | emitDiag (k : telemetryErrorE) (set : Bool)
  | doorCheckTime
  | lightCheckTime
deriving DecidableEq, Repr

/-- The GPS drain loop of `loop()`, fuel-indexed so the recursion is
structural: while bytes are available, read up to 255 of them
(`sizeof(GPSData) - 1`, the 256-byte scratch buffer keeping one slot for
a terminator) and hand the chunk to the parser.  `drainGPS` supplies fuel
equal to the byte count, which each pass strictly decreases, so the fuel
never runs out. -/
def drainGPSAux : Nat → List Nat → List (List Nat)
  | _, [] => []
  | 0, _ :: _ => []
  | fuel + 1, b :: bs =>
      (b :: bs).take 255 :: drainGPSAux fuel ((b :: bs).drop 255)

/-- The chunks the drain loop hands to `g_GPSParser.parse`, in order. -/
def drainGPS (bytes : List Nat) : List (List Nat) :=
  drainGPSAux bytes.length bytes

/-- The trace of one `reportError` call: the beep request issued inside
the set branch, then the completed diagnostic line. -/
def reportErrorTrace (r : ErrEffects) : List LoopEvent :=
  (match r.beep with
   | some c => [.beep c]
   | none => []) ++
  (match r.emission with
   | some (k, b) => [.emitDiag k b]
   | none => [])

/-- `sendErrors()`: the error-flag word as a single term inside its own
start/end-bracketed transmission. -/
def sendErrorsTrace (flags : Nat) : List LoopEvent :=
  [.transmissionStart, .sendTerm .tag_error_flags,
   .sendTerm (.errorFlags flags), .transmissionEnd]

/-- The unconditional per-iteration collaborator ticks. -/
def ticksTrace : List LoopEvent :=
  [.commTick, .telemetryTick, .beepTick, .doorTick]

/-- The trace of one telemetry-task firing: the heartbeat write, the
version transmission, the error transmission and the collaborator
telemetry hooks, in program order. -/
def telemetryTrace (hb : Bool) (flags : Nat) : List LoopEvent :=
  [.heartbeatWrite hb, .transmissionStart, .sendTerm .tag_version,
   .sendTerm .version01, .transmissionEnd] ++
  sendErrorsTrace flags ++
  [.sunCalcTelemetry, .doorTelemetry, .lightTelemetry]

/-- The trace of the no-data branch of the time-check task: the fix-state
clear followed by the `reportError` call. -/
def noDataTrace (r : ErrEffects) : List LoopEvent :=
  .gpsDataClear :: reportErrorTrace r

/-- The door and light `checkTime` calls. -/
def checkTimeTrace : List LoopEvent :=
  [.doorCheckTime, .lightCheckTime]

/-- The global mutable state of the sketch that `loop()` reads and
writes. -/
structure CoopState where
  settingsLoaded : Bool
  store : Store
  gpsData : GPSData
  gpsDataStreamActive : Bool
  errorFlags : Nat
  heartbeat : Bool
  telemetryUpdateTimer : MilliTimer
  timeCheckTimer : MilliTimer
deriving DecidableEq, Repr

/-- The per-iteration environment: the clock (`millis`), the bytes
presently buffered on the GPS serial port, the external parser's lock
state after it has consumed this iteration's bytes, and the external sun
calculator's report of whether the time computation is currently valid
(`processGPSData`'s return value). -/
structure LoopInput where
  now : Nat
  gpsBytes : List Nat
  lockedAfterParse : Bool
  sunCalcValid : Bool
deriving DecidableEq, Repr

/-- One iteration of `loop()`: the one-time settings gate, the GPS drain,
the unconditional collaborator ticks, the telemetry task and the
time-check task, returning the new state and the trace of collaborator
actions in program order. -/
def loopStep (s : CoopState) (inp : LoopInput) :
    CoopState × List LoopEvent :=
  let p1 : CoopState × List LoopEvent :=
    if !s.settingsLoaded then
      let q := loadSettings s.store
      ({ s with store := q.1, settingsLoaded := true },
       q.2.map .settings)
    else (s, [])
  let s1 := p1.1
  let p2 : CoopState × List LoopEvent :=
    if inp.gpsBytes.isEmpty then (s1, [])
    else
      ({ s1 with
          gpsData := ⟨inp.lockedAfterParse⟩,
          gpsDataStreamActive := true },
       (drainGPS inp.gpsBytes).map .parseChunk)
  let s2 := p2.1
  let tr3 : List LoopEvent := ticksTrace
  let p4 : CoopState × List LoopEvent :=
    if s2.telemetryUpdateTimer.expired inp.now then
      let hb := !s2.heartbeat
      ({ s2 with
          heartbeat := hb,
          telemetryUpdateTimer := MilliTimer.start inp.now TELEMETRY_UPDATE },
       telemetryTrace hb s2.errorFlags)
    else (s2, [])
  let s4 := p4.1
  let p5 : CoopState × List LoopEvent :=
    if s4.timeCheckTimer.expired inp.now then
      let period :=
        if s4.gpsData.m_GPSLocked then TIME_CHECK_UPDATE_GPS_LOCK
        else TIME_CHECK_UPDATE_NO_GPS_LOCK
      let s5a := { s4 with timeCheckTimer := MilliTimer.start inp.now period }
      let p5b : CoopState × List LoopEvent :=
        if !s5a.gpsDataStreamActive then
          let s5c := { s5a with gpsData := s5a.gpsData.clear }
          let r := reportError s5c.errorFlags .GPS_no_data true
          ({ s5c with errorFlags := r.1 },
           noDataTrace r.2)
        else
          let r := reportError s5a.errorFlags .GPS_no_data false
          ({ s5a with errorFlags := r.1 }, reportErrorTrace r.2)
      let s5d := { p5b.1 with gpsDataStreamActive := false }
      if inp.sunCalcValid then
        (s5d, p5b.2 ++ checkTimeTrace)
      else
        (s5d, p5b.2)
    else (s4, [])
  (p5.1, p1.2 ++ p2.2 ++ tr3 ++ p4.2 ++ p5.2)

/-- The value of `s_gpsDataStreamActive` the time-check task reads at a
firing: the latched flag, possibly freshly set by this iteration's
drain. -/
def activeAtFiring (s : CoopState) (inp : LoopInput) : Bool :=
  s.gpsDataStreamActive || !inp.gpsBytes.isEmpty

/-- The GPS lock state the time-check re-arm reads at a firing: the
parser's state after this iteration's drain. -/
def lockedAtFiring (s : CoopState) (inp : LoopInput) : Bool :=
  if inp.gpsBytes.isEmpty then s.gpsData.m_GPSLocked
  else inp.lockedAfterParse

/-- The diagnostic emissions in a trace, in order. -/
def diagEmissions (tr : List LoopEvent) : List (telemetryErrorE × Bool) :=
  tr.filterMap fun e =>
    match e with
    | .emitDiag k b => some (k, b)
    | _ => none

/-- The diagnostic emission of one `reportError` call as a list. -/
def emissionList (r : ErrEffects) : List (telemetryErrorE × Bool) :=
  match r.emission with
  | some (k, b) => [(k, b)]
  | none => []

/-- The telemetry-task events in a trace (heartbeat write, framing calls
and telemetry hooks), in order. -/
def telEvents (tr : List LoopEvent) : List LoopEvent :=
  tr.filter fun e =>
    match e with
    | .heartbeatWrite _ => true
    | .transmissionStart => true
    | .sendTerm _ => true
    | .transmissionEnd => true
    | .sunCalcTelemetry => true
    | .doorTelemetry => true
    | .lightTelemetry => true
    | _ => false

/-- The chunks handed to `g_GPSParser.parse` in a trace, in order. -/
def parseEvents (tr : List LoopEvent) : List (List Nat) :=
  tr.filterMap fun e =>
    match e with
    | .parseChunk c => some c
    | _ => none

/-- The fix-state clears and diagnostic emissions in a trace, in order:
the events whose relative order decides whether the lock is discarded
before the no-data error is raised. -/
def fixClearAndDiagEvents (tr : List LoopEvent) : List LoopEvent :=
  tr.filter fun e =>
    match e with
    | .gpsDataClear => true
    | .emitDiag _ _ => true
    | _ => false

/-- The `checkTime` calls in a trace, in order. -/
def checkTimeEvents (tr : List LoopEvent) : List LoopEvent :=
  tr.filter fun e =>
    match e with
    | .doorCheckTime => true
    | .lightCheckTime => true
    | _ => false

theorem drainGPSAux_fuel_irrel :
    ∀ (fuel fuel' : Nat) (bytes : List Nat),
      bytes.length ≤ fuel → bytes.length ≤ fuel' →
      drainGPSAux fuel bytes = drainGPSAux fuel' bytes := by
  intro fuel
  induction fuel with
  | zero =>
      intro fuel' bytes h _
      cases bytes with
      | nil => cases fuel' <;> rfl
      | cons b bs => exact absurd h (by simp)
  | succ f ih =>
      intro fuel' bytes h h'
      cases bytes with
      | nil => cases fuel' <;> rfl
      | cons b bs =>
          cases fuel' with
          | zero => exact absurd h' (by simp)
          | succ f' =>
              rw [drainGPSAux, drainGPSAux]
              have hd : ((b :: bs).drop 255).length ≤ bs.length := by
                rw [List.length_drop, List.length_cons]
                omega
              rw [ih f' _ (le_trans hd (Nat.le_of_succ_le_succ h))
                (le_trans hd (Nat.le_of_succ_le_succ h'))]

/-- The drain loop's unfolding: a nonempty buffer yields a first chunk of
up to 255 bytes and the drain of the rest. -/
theorem drainGPS_cons (b : Nat) (bs : List Nat) :
    drainGPS (b :: bs) =
      (b :: bs).take 255 :: drainGPS ((b :: bs).drop 255) := by
  rw [drainGPS, drainGPS, List.length_cons, drainGPSAux]
  have hd : ((b :: bs).drop 255).length ≤ bs.length := by
    rw [List.length_drop, List.length_cons]
    omega
  rw [drainGPSAux_fuel_irrel bs.length ((b :: bs).drop 255).length _ hd
    le_rfl]

theorem drainGPSAux_chunks :
    ∀ (fuel : Nat) (bytes : List Nat) (c : List Nat),
      c ∈ drainGPSAux fuel bytes → c.length ≤ 255 ∧ c ≠ [] := by
  intro fuel
  induction fuel with
  | zero =>
      intro bytes c hc
      cases bytes <;> simp [drainGPSAux] at hc
  | succ f ih =>
      intro bytes c hc
      cases bytes with
      | nil => simp [drainGPSAux] at hc
      | cons b bs =>
          rw [drainGPSAux] at hc
          rcases List.mem_cons.mp hc with rfl | hmem
          · constructor
            · simpa using List.length_take_le 255 (b :: bs)
            · simp [List.take_cons]
          · exact ih _ _ hmem

theorem drainGPSAux_join :
    ∀ (fuel : Nat) (bytes : List Nat), bytes.length ≤ fuel →
      (drainGPSAux fuel bytes).flatten = bytes := by
  intro fuel
  induction fuel with
  | zero =>
      intro bytes h
      cases bytes with
      | nil => rfl
      | cons b bs => exact absurd h (by simp)
  | succ f ih =>
      intro bytes h
      cases bytes with
      | nil => rfl
      | cons b bs =>
          rw [drainGPSAux, List.flatten_cons]
          have hd : ((b :: bs).drop 255).length ≤ bs.length := by
            rw [List.length_drop, List.length_cons]
            omega
          rw [ih _ (le_trans hd (Nat.le_of_succ_le_succ h))]
          exact List.take_append_drop 255 (b :: bs)

theorem drainGPS_join (bytes : List Nat) :
    (drainGPS bytes).flatten = bytes :=
  drainGPSAux_join bytes.length bytes le_rfl

theorem drainGPS_chunks (bytes c : List Nat) (hc : c ∈ drainGPS bytes) :
    c.length ≤ 255 ∧ c ≠ [] :=
  drainGPSAux_chunks bytes.length bytes c hc

theorem diagEmissions_append (a b : List LoopEvent) :
    diagEmissions (a ++ b) = diagEmissions a ++ diagEmissions b := by
  rw [diagEmissions, diagEmissions, diagEmissions, List.filterMap_append]

theorem diagEmissions_settingsMap (es : List SettingsEvent) :
    diagEmissions (es.map .settings) = [] := by
  induction es with
  | nil => rfl
  | cons e es ih => simpa [diagEmissions] using ih

theorem diagEmissions_parseMap (cs : List (List Nat)) :
    diagEmissions (cs.map .parseChunk) = [] := by
  induction cs with
  | nil => rfl
  | cons c cs ih => simpa [diagEmissions] using ih

theorem diagEmissions_reportErrorTrace (r : ErrEffects) :
    diagEmissions (reportErrorTrace r) = emissionList r := by
  rcases r with ⟨em, bp⟩
  rcases em with _ | ⟨k, b⟩ <;> rcases bp with _ | c <;>
    simp [reportErrorTrace, diagEmissions, emissionList]

theorem telEvents_append (a b : List LoopEvent) :
    telEvents (a ++ b) = telEvents a ++ telEvents b := by
  rw [telEvents, telEvents, telEvents, List.filter_append]

theorem telEvents_settingsMap (es : List SettingsEvent) :
    telEvents (es.map .settings) = [] := by
  induction es with
  | nil => rfl
  | cons e es ih => simpa [telEvents] using ih

theorem telEvents_parseMap (cs : List (List Nat)) :
    telEvents (cs.map .parseChunk) = [] := by
  induction cs with
  | nil => rfl
  | cons c cs ih => simpa [telEvents] using ih

theorem telEvents_reportErrorTrace (r : ErrEffects) :
    telEvents (reportErrorTrace r) = [] := by
  rcases r with ⟨em, bp⟩
  rcases em with _ | ⟨k, b⟩ <;> rcases bp with _ | c <;>
    simp [reportErrorTrace, telEvents]

theorem parseEvents_append (a b : List LoopEvent) :
    parseEvents (a ++ b) = parseEvents a ++ parseEvents b := by
  rw [parseEvents, parseEvents, parseEvents, List.filterMap_append]

theorem parseEvents_settingsMap (es : List SettingsEvent) :
    parseEvents (es.map .settings) = [] := by
  induction es with
  | nil => rfl
  | cons e es ih => simpa [parseEvents] using ih

theorem parseEvents_parseMap (cs : List (List Nat)) :
    parseEvents (cs.map .parseChunk) = cs := by
  induction cs with
  | nil => rfl
  | cons c cs ih => simpa [parseEvents] using ih

theorem parseEvents_reportErrorTrace (r : ErrEffects) :
    parseEvents (reportErrorTrace r) = [] := by
  rcases r with ⟨em, bp⟩
  rcases em with _ | ⟨k, b⟩ <;> rcases bp with _ | c <;>
    simp [reportErrorTrace, parseEvents]

theorem fixClearAndDiagEvents_append (a b : List LoopEvent) :
    fixClearAndDiagEvents (a ++ b) =
      fixClearAndDiagEvents a ++ fixClearAndDiagEvents b := by
  rw [fixClearAndDiagEvents, fixClearAndDiagEvents, fixClearAndDiagEvents,
    List.filter_append]

theorem fixClearAndDiagEvents_settingsMap (es : List SettingsEvent) :
    fixClearAndDiagEvents (es.map .settings) = [] := by
  induction es with
  | nil => rfl
  | cons e es ih => simpa [fixClearAndDiagEvents] using ih

theorem fixClearAndDiagEvents_parseMap (cs : List (List Nat)) :
    fixClearAndDiagEvents (cs.map .parseChunk) = [] := by
  induction cs with
  | nil => rfl
  | cons c cs ih => simpa [fixClearAndDiagEvents] using ih

theorem fixClearAndDiagEvents_reportErrorTrace (r : ErrEffects) :
    fixClearAndDiagEvents (reportErrorTrace r) =
      (emissionList r).map fun p => .emitDiag p.1 p.2 := by
  rcases r with ⟨em, bp⟩
  rcases em with _ | ⟨k, b⟩ <;> rcases bp with _ | c <;>
    simp [reportErrorTrace, fixClearAndDiagEvents, emissionList]

theorem checkTimeEvents_append (a b : List LoopEvent) :
    checkTimeEvents (a ++ b) = checkTimeEvents a ++ checkTimeEvents b := by
  rw [checkTimeEvents, checkTimeEvents, checkTimeEvents, List.filter_append]

theorem checkTimeEvents_settingsMap (es : List SettingsEvent) :
    checkTimeEvents (es.map .settings) = [] := by
  induction es with
  | nil => rfl
  | cons e es ih => simpa [checkTimeEvents] using ih

theorem checkTimeEvents_parseMap (cs : List (List Nat)) :
    checkTimeEvents (cs.map .parseChunk) = [] := by
  induction cs with
  | nil => rfl
  | cons c cs ih => simpa [checkTimeEvents] using ih

theorem checkTimeEvents_reportErrorTrace (r : ErrEffects) :
    checkTimeEvents (reportErrorTrace r) = [] := by
  rcases r with ⟨em, bp⟩
  rcases em with _ | ⟨k, b⟩ <;> rcases bp with _ | c <;>
    simp [reportErrorTrace, checkTimeEvents]

theorem drainGPS_nil : drainGPS [] = [] := rfl

theorem diagEmissions_ticksTrace : diagEmissions ticksTrace = [] := rfl

theorem diagEmissions_telemetryTrace (hb : Bool) (flags : Nat) :
    diagEmissions (telemetryTrace hb flags) = [] := rfl

theorem diagEmissions_noDataTrace (r : ErrEffects) :
    diagEmissions (noDataTrace r) = emissionList r := by
  rw [noDataTrace, diagEmissions, List.filterMap_cons]
  exact diagEmissions_reportErrorTrace r

theorem diagEmissions_checkTimeTrace :
    diagEmissions checkTimeTrace = [] := rfl

theorem telEvents_ticksTrace : telEvents ticksTrace = [] := rfl

theorem telEvents_telemetryTrace (hb : Bool) (flags : Nat) :
    telEvents (telemetryTrace hb flags) =
      [.heartbeatWrite hb, .transmissionStart, .sendTerm .tag_version,
       .sendTerm .version01, .transmissionEnd, .transmissionStart,
       .sendTerm .tag_error_flags, .sendTerm (.errorFlags flags),
       .transmissionEnd, .sunCalcTelemetry, .doorTelemetry,
       .lightTelemetry] := rfl

theorem telEvents_noDataTrace (r : ErrEffects) :
    telEvents (noDataTrace r) = [] := by
  rw [noDataTrace, telEvents, List.filter_cons]
  exact telEvents_reportErrorTrace r

theorem telEvents_checkTimeTrace : telEvents checkTimeTrace = [] := rfl

theorem parseEvents_ticksTrace : parseEvents ticksTrace = [] := rfl

theorem parseEvents_telemetryTrace (hb : Bool) (flags : Nat) :
    parseEvents (telemetryTrace hb flags) = [] := rfl

theorem parseEvents_noDataTrace (r : ErrEffects) :
    parseEvents (noDataTrace r) = [] := by
  rw [noDataTrace, parseEvents, List.filterMap_cons]
  exact parseEvents_reportErrorTrace r

theorem parseEvents_checkTimeTrace : parseEvents checkTimeTrace = [] := rfl

theorem fixClearAndDiagEvents_ticksTrace :
    fixClearAndDiagEvents ticksTrace = [] := rfl

theorem fixClearAndDiagEvents_telemetryTrace (hb : Bool) (flags : Nat) :
    fixClearAndDiagEvents (telemetryTrace hb flags) = [] := rfl

theorem fixClearAndDiagEvents_noDataTrace (r : ErrEffects) :
    fixClearAndDiagEvents (noDataTrace r) =
      .gpsDataClear :: ((emissionList r).map fun p =>
        .emitDiag p.1 p.2) := by
  rw [noDataTrace, fixClearAndDiagEvents, List.filter_cons]
  have h := fixClearAndDiagEvents_reportErrorTrace r
  rw [fixClearAndDiagEvents] at h
  rw [h]
  rfl

theorem fixClearAndDiagEvents_checkTimeTrace :
    fixClearAndDiagEvents checkTimeTrace = [] := rfl

theorem checkTimeEvents_ticksTrace : checkTimeEvents ticksTrace = [] := rfl

theorem checkTimeEvents_telemetryTrace (hb : Bool) (flags : Nat) :
    checkTimeEvents (telemetryTrace hb flags) = [] := rfl

theorem checkTimeEvents_noDataTrace (r : ErrEffects) :
    checkTimeEvents (noDataTrace r) = [] := by
  rw [noDataTrace, checkTimeEvents, List.filter_cons]
  exact checkTimeEvents_reportErrorTrace r

theorem checkTimeEvents_checkTimeTrace :
    checkTimeEvents checkTimeTrace =
      [.doorCheckTime, .lightCheckTime] := rfl

theorem loopStep_timeCheckTimer (s : CoopState) (inp : LoopInput) :
    (loopStep s inp).1.timeCheckTimer =
      if s.timeCheckTimer.expired inp.now then
        MilliTimer.start inp.now
          (if lockedAtFiring s inp then TIME_CHECK_UPDATE_GPS_LOCK
           else TIME_CHECK_UPDATE_NO_GPS_LOCK)
      else s.timeCheckTimer := by
  rw [loopStep, lockedAtFiring]
  by_cases hg : s.settingsLoaded = true <;>
  by_cases hb : inp.gpsBytes.isEmpty = true <;>
  by_cases ht : s.telemetryUpdateTimer.expired inp.now = true <;>
  by_cases htc : s.timeCheckTimer.expired inp.now = true <;>
  by_cases ha : s.gpsDataStreamActive = true <;>
  by_cases hv : inp.sunCalcValid = true <;>
  simp [hg, hb, ht, htc, ha, hv]

theorem loopStep_gpsDataStreamActive (s : CoopState) (inp : LoopInput) :
    (loopStep s inp).1.gpsDataStreamActive =
      if s.timeCheckTimer.expired inp.now then false
      else activeAtFiring s inp := by
  rw [loopStep, activeAtFiring]
  by_cases hg : s.settingsLoaded = true <;>
  by_cases hb : inp.gpsBytes.isEmpty = true <;>
  by_cases ht : s.telemetryUpdateTimer.expired inp.now = true <;>
  by_cases htc : s.timeCheckTimer.expired inp.now = true <;>
  by_cases ha : s.gpsDataStreamActive = true <;>
  by_cases hv : inp.sunCalcValid = true <;>
  simp [hg, hb, ht, htc, ha, hv]

theorem loopStep_errorFlags (s : CoopState) (inp : LoopInput) :
    (loopStep s inp).1.errorFlags =
      if s.timeCheckTimer.expired inp.now then
        (reportError s.errorFlags .GPS_no_data (!activeAtFiring s inp)).1
      else s.errorFlags := by
  rw [loopStep, activeAtFiring]
  by_cases hg : s.settingsLoaded = true <;>
  by_cases hb : inp.gpsBytes.isEmpty = true <;>
  by_cases ht : s.telemetryUpdateTimer.expired inp.now = true <;>
  by_cases htc : s.timeCheckTimer.expired inp.now = true <;>
  by_cases ha : s.gpsDataStreamActive = true <;>
  by_cases hv : inp.sunCalcValid = true <;>
  simp [hg, hb, ht, htc, ha, hv]

theorem loopStep_gpsLocked (s : CoopState) (inp : LoopInput) :
    (loopStep s inp).1.gpsData.m_GPSLocked =
      if s.timeCheckTimer.expired inp.now && !activeAtFiring s inp then
        false
      else lockedAtFiring s inp := by
  rw [loopStep, activeAtFiring, lockedAtFiring]
  by_cases hg : s.settingsLoaded = true <;>
  by_cases hb : inp.gpsBytes.isEmpty = true <;>
  by_cases ht : s.telemetryUpdateTimer.expired inp.now = true <;>
  by_cases htc : s.timeCheckTimer.expired inp.now = true <;>
  by_cases ha : s.gpsDataStreamActive = true <;>
  by_cases hv : inp.sunCalcValid = true <;>
  simp [hg, hb, ht, htc, ha, hv, GPSData.clear]

theorem loopStep_heartbeat (s : CoopState) (inp : LoopInput) :
    (loopStep s inp).1.heartbeat =
      if s.telemetryUpdateTimer.expired inp.now then !s.heartbeat
      else s.heartbeat := by
  rw [loopStep]
  by_cases hg : s.settingsLoaded = true <;>
  by_cases hb : inp.gpsBytes.isEmpty = true <;>
  by_cases ht : s.telemetryUpdateTimer.expired inp.now = true <;>
  by_cases htc : s.timeCheckTimer.expired inp.now = true <;>
  by_cases ha : s.gpsDataStreamActive = true <;>
  by_cases hv : inp.sunCalcValid = true <;>
  simp [hg, hb, ht, htc, ha, hv]

theorem loopStep_telemetryUpdateTimer (s : CoopState) (inp : LoopInput) :
    (loopStep s inp).1.telemetryUpdateTimer =
      if s.telemetryUpdateTimer.expired inp.now then
        MilliTimer.start inp.now TELEMETRY_UPDATE
      else s.telemetryUpdateTimer := by
  rw [loopStep]
  by_cases hg : s.settingsLoaded = true <;>
  by_cases hb : inp.gpsBytes.isEmpty = true <;>
  by_cases ht : s.telemetryUpdateTimer.expired inp.now = true <;>
  by_cases htc : s.timeCheckTimer.expired inp.now = true <;>
  by_cases ha : s.gpsDataStreamActive = true <;>
  by_cases hv : inp.sunCalcValid = true <;>
  simp [hg, hb, ht, htc, ha, hv]

theorem loopStep_diagEmissions (s : CoopState) (inp : LoopInput) :
    diagEmissions (loopStep s inp).2 =
      if s.timeCheckTimer.expired inp.now then
        emissionList (reportError s.errorFlags .GPS_no_data
          (!activeAtFiring s inp)).2
      else [] := by
  rw [loopStep, activeAtFiring]
  by_cases hg : s.settingsLoaded = true <;>
  by_cases hb : inp.gpsBytes.isEmpty = true <;>
  by_cases ht : s.telemetryUpdateTimer.expired inp.now = true <;>
  by_cases htc : s.timeCheckTimer.expired inp.now = true <;>
  by_cases ha : s.gpsDataStreamActive = true <;>
  by_cases hv : inp.sunCalcValid = true <;>
  simp [hg, hb, ht, htc, ha, hv, diagEmissions_append,
    diagEmissions_settingsMap, diagEmissions_parseMap,
    diagEmissions_reportErrorTrace, diagEmissions_ticksTrace,
    diagEmissions_telemetryTrace, diagEmissions_noDataTrace,
    diagEmissions_checkTimeTrace]

theorem loopStep_telEvents (s : CoopState) (inp : LoopInput) :
    telEvents (loopStep s inp).2 =
      if s.telemetryUpdateTimer.expired inp.now then
        [.heartbeatWrite (!s.heartbeat), .transmissionStart,
         .sendTerm .tag_version, .sendTerm .version01, .transmissionEnd,
         .transmissionStart, .sendTerm .tag_error_flags,
         .sendTerm (.errorFlags s.errorFlags), .transmissionEnd,
         .sunCalcTelemetry, .doorTelemetry, .lightTelemetry]
      else [] := by
  rw [loopStep]
  by_cases hg : s.settingsLoaded = true <;>
  by_cases hb : inp.gpsBytes.isEmpty = true <;>
  by_cases ht : s.telemetryUpdateTimer.expired inp.now = true <;>
  by_cases htc : s.timeCheckTimer.expired inp.now = true <;>
  by_cases ha : s.gpsDataStreamActive = true <;>
  by_cases hv : inp.sunCalcValid = true <;>
  simp [hg, hb, ht, htc, ha, hv, telEvents_append, telEvents_settingsMap,
    telEvents_parseMap, telEvents_reportErrorTrace, telEvents_ticksTrace,
    telEvents_telemetryTrace, telEvents_noDataTrace,
    telEvents_checkTimeTrace]

theorem loopStep_parseEvents (s : CoopState) (inp : LoopInput) :
    parseEvents (loopStep s inp).2 = drainGPS inp.gpsBytes := by
  rw [loopStep]
  by_cases hg : s.settingsLoaded = true <;>
  by_cases hb : inp.gpsBytes.isEmpty = true <;>
  by_cases ht : s.telemetryUpdateTimer.expired inp.now = true <;>
  by_cases htc : s.timeCheckTimer.expired inp.now = true <;>
  by_cases ha : s.gpsDataStreamActive = true <;>
  by_cases hv : inp.sunCalcValid = true <;>
  simp [hg, hb, ht, htc, ha, hv, parseEvents_append,
    parseEvents_settingsMap, parseEvents_parseMap,
    parseEvents_reportErrorTrace, parseEvents_ticksTrace,
    parseEvents_telemetryTrace, parseEvents_noDataTrace,
    parseEvents_checkTimeTrace] <;>
  simp [List.isEmpty_iff] at hb <;>
  simp [hb, drainGPS_nil]

theorem loopStep_checkTimeEvents (s : CoopState) (inp : LoopInput) :
    checkTimeEvents (loopStep s inp).2 =
      if s.timeCheckTimer.expired inp.now && inp.sunCalcValid then
        [.doorCheckTime, .lightCheckTime]
      else [] := by
  rw [loopStep]
  by_cases hg : s.settingsLoaded = true <;>
  by_cases hb : inp.gpsBytes.isEmpty = true <;>
  by_cases ht : s.telemetryUpdateTimer.expired inp.now = true <;>
  by_cases htc : s.timeCheckTimer.expired inp.now = true <;>
  by_cases ha : s.gpsDataStreamActive = true <;>
  by_cases hv : inp.sunCalcValid = true <;>
  simp [hg, hb, ht, htc, ha, hv, checkTimeEvents_append,
    checkTimeEvents_settingsMap, checkTimeEvents_parseMap,
    checkTimeEvents_reportErrorTrace, checkTimeEvents_ticksTrace,
    checkTimeEvents_telemetryTrace, checkTimeEvents_noDataTrace,
    checkTimeEvents_checkTimeTrace]

theorem loopStep_fixClearAndDiag (s : CoopState) (inp : LoopInput) :
    fixClearAndDiagEvents (loopStep s inp).2 =
      if s.timeCheckTimer.expired inp.now then
        if activeAtFiring s inp then
          (emissionList (reportError s.errorFlags .GPS_no_data
            false).2).map fun p => .emitDiag p.1 p.2
        else
          .gpsDataClear :: ((emissionList (reportError s.errorFlags
            .GPS_no_data true).2).map fun p => .emitDiag p.1 p.2)
      else [] := by
  rw [loopStep, activeAtFiring]
  by_cases hg : s.settingsLoaded = true <;>
  by_cases hb : inp.gpsBytes.isEmpty = true <;>
  by_cases ht : s.telemetryUpdateTimer.expired inp.now = true <;>
  by_cases htc : s.timeCheckTimer.expired inp.now = true <;>
  by_cases ha : s.gpsDataStreamActive = true <;>
  by_cases hv : inp.sunCalcValid = true <;>
  simp [hg, hb, ht, htc, ha, hv, fixClearAndDiagEvents_append,
    fixClearAndDiagEvents_settingsMap, fixClearAndDiagEvents_parseMap,
    fixClearAndDiagEvents_reportErrorTrace,
    fixClearAndDiagEvents_ticksTrace,
    fixClearAndDiagEvents_telemetryTrace,
    fixClearAndDiagEvents_noDataTrace,
    fixClearAndDiagEvents_checkTimeTrace]

theorem bitSet_reportError_self (flags : Nat) (k : telemetryErrorE)
    (b : Bool) : bitSet (reportError flags k b).1 k = b := by
  rw [bitSet_reportError, if_pos rfl]

theorem emissionList_set_trans (flags : Nat) (k : telemetryErrorE)
    (h : bitSet flags k = false) :
    emissionList (reportError flags k true).2 = [(k, true)] := by
  rw [reportError_set_trans flags k h]
  rfl

theorem emissionList_set_noop (flags : Nat) (k : telemetryErrorE)
    (h : bitSet flags k = true) :
    emissionList (reportError flags k true).2 = [] := by
  rw [reportError_set_noop flags k h]
  rfl

theorem emissionList_clear_trans (flags : Nat) (k : telemetryErrorE)
    (h : bitSet flags k = true) :
    emissionList (reportError flags k false).2 = [(k, false)] := by
  rw [reportError_clear_trans flags k h]
  rfl

theorem emissionList_clear_noop (flags : Nat) (k : telemetryErrorE)
    (h : bitSet flags k = false) :
    emissionList (reportError flags k false).2 = [] := by
  rw [reportError_clear_noop flags k h]
  rfl

/-- C3: whenever the time-check timer is found expired, it is re-armed at
that same firing with the period chosen from the GPS lock state read at
that firing: 60000 ms when locked, 5000 ms when not — so a lock acquired
since the previous firing is already honoured by this firing's re-arm. -/
theorem timeCheck_adaptive_rearm (s : CoopState) (inp : LoopInput)
    (hexp : s.timeCheckTimer.expired inp.now = true) :
    (loopStep s inp).1.timeCheckTimer =
      MilliTimer.start inp.now
        (if lockedAtFiring s inp then TIME_CHECK_UPDATE_GPS_LOCK
         else TIME_CHECK_UPDATE_NO_GPS_LOCK) := by
  rw [loopStep_timeCheckTimer, if_pos hexp]

/-- Closed instance of `timeCheck_adaptive_rearm`: the fix became locked
since the previous firing (the state holds an unlocked fix, this
iteration's bytes lock it), and the 60000 ms period is used at this very
firing. -/
theorem timeCheck_adaptive_rearm_witness :
    (loopStep ⟨true, ⟨1⟩, ⟨false⟩, false, 0, false, ⟨1000000⟩, ⟨50⟩⟩
        ⟨50, [1, 2, 3], true, false⟩).1.timeCheckTimer =
      MilliTimer.start 50 TIME_CHECK_UPDATE_GPS_LOCK := by
  have h := timeCheck_adaptive_rearm
    ⟨true, ⟨1⟩, ⟨false⟩, false, 0, false, ⟨1000000⟩, ⟨50⟩⟩
    ⟨50, [1, 2, 3], true, false⟩ (by decide)
  simpa [lockedAtFiring] using h

set_option maxRecDepth 4000 in
/-- C5 counterexample: with 256 bytes presently buffered, the drain step
of one single loop iteration hands the parser two chunks totalling 256
bytes — more than one 255-byte scratch-buffer's worth — leaving no
remainder for a later iteration. -/
theorem drain_remainder_counterexample :
    parseEvents (loopStep
        ⟨true, ⟨1⟩, ⟨false⟩, false, 0, false, ⟨1000000⟩, ⟨1000000⟩⟩
        ⟨0, List.replicate 256 0, false, false⟩).2 =
      [List.replicate 255 0, List.replicate 1 0] ∧
    255 < (List.replicate 255 0).length + (List.replicate 1 0).length := by
  constructor
  · rw [loopStep_parseEvents]
    decide
  · decide

/-- C5 amended: the drain step of a single loop iteration consumes all
presently-buffered bytes, in chunks of at most 255 bytes (one scratch
buffer's worth per read); every chunk is nonempty, is handed to the
external parser in order, and the chunks concatenate to exactly the
buffered byte sequence. -/
theorem drain_chunks_bounded_complete (s : CoopState) (inp : LoopInput) :
    parseEvents (loopStep s inp).2 = drainGPS inp.gpsBytes ∧
    (∀ c ∈ drainGPS inp.gpsBytes, c.length ≤ 255 ∧ c ≠ []) ∧
    (drainGPS inp.gpsBytes).flatten = inp.gpsBytes :=
  ⟨loopStep_parseEvents s inp,
   fun c hc => drainGPS_chunks inp.gpsBytes c hc,
   drainGPS_join inp.gpsBytes⟩

/-- Closed instance of `drain_chunks_bounded_complete` at concrete
inputs, the membership hypothesis discharged by evaluation. -/
theorem drain_chunks_bounded_complete_witness :
    parseEvents (loopStep
        ⟨true, ⟨1⟩, ⟨false⟩, false, 0, false, ⟨1000000⟩, ⟨1000000⟩⟩
        ⟨0, [1, 2, 3], false, false⟩).2 = drainGPS [1, 2, 3] ∧
    ([1, 2, 3].length ≤ 255 ∧ [1, 2, 3] ≠ []) :=
  ⟨(drain_chunks_bounded_complete
      ⟨true, ⟨1⟩, ⟨false⟩, false, 0, false, ⟨1000000⟩, ⟨1000000⟩⟩
      ⟨0, [1, 2, 3], false, false⟩).1,
   (drain_chunks_bounded_complete
      ⟨true, ⟨1⟩, ⟨false⟩, false, 0, false, ⟨1000000⟩, ⟨1000000⟩⟩
      ⟨0, [1, 2, 3], false, false⟩).2.1 [1, 2, 3] (by decide)⟩

theorem loop_checkTime_mem (s : CoopState) (inp : LoopInput)
    (e : LoopEvent)
    (he : (match e with
      | .doorCheckTime => true
      | .lightCheckTime => true
      | _ => false) = true) :
    e ∈ (loopStep s inp).2 ↔
      (s.timeCheckTimer.expired inp.now = true ∧
        inp.sunCalcValid = true) := by
  have hmem : e ∈ (loopStep s inp).2 ↔
      e ∈ checkTimeEvents (loopStep s inp).2 := by
    rw [checkTimeEvents, List.mem_filter]
    simp [he]
  rw [hmem, loopStep_checkTimeEvents]
  by_cases h1 : s.timeCheckTimer.expired inp.now = true <;>
  by_cases h2 : inp.sunCalcValid = true <;>
  simp only [h1, h2] <;>
  cases e <;> simp_all

/-- C7: the door and light `checkTime` calls occur in an iteration iff the
time-check timer has expired and the sun calculator's processing of the
fix data reports a valid time; on an invalid report neither is invoked,
and the iteration still completes (the step function is total). -/
theorem door_light_checkTime_iff_valid (s : CoopState) (inp : LoopInput) :
    (LoopEvent.doorCheckTime ∈ (loopStep s inp).2 ↔
      (s.timeCheckTimer.expired inp.now = true ∧
        inp.sunCalcValid = true)) ∧
    (LoopEvent.lightCheckTime ∈ (loopStep s inp).2 ↔
      (s.timeCheckTimer.expired inp.now = true ∧
        inp.sunCalcValid = true)) :=
  ⟨loop_checkTime_mem s inp .doorCheckTime rfl,
   loop_checkTime_mem s inp .lightCheckTime rfl⟩

/-- Closed instance of `door_light_checkTime_iff_valid`: with an expired
timer and a valid time report both calls occur; with an invalid report
the light call does not. -/
theorem door_light_checkTime_iff_valid_witness :
    LoopEvent.doorCheckTime ∈ (loopStep
      ⟨true, ⟨1⟩, ⟨false⟩, false, 0, false, ⟨1000000⟩, ⟨50⟩⟩
      ⟨50, [], false, true⟩).2 ∧
    LoopEvent.lightCheckTime ∉ (loopStep
      ⟨true, ⟨1⟩, ⟨false⟩, false, 0, false, ⟨1000000⟩, ⟨50⟩⟩
      ⟨50, [], false, false⟩).2 := by
  constructor
  · exact (door_light_checkTime_iff_valid
      ⟨true, ⟨1⟩, ⟨false⟩, false, 0, false, ⟨1000000⟩, ⟨50⟩⟩
      ⟨50, [], false, true⟩).1.mpr ⟨by decide, rfl⟩
  · intro hm
    have h := (door_light_checkTime_iff_valid
      ⟨true, ⟨1⟩, ⟨false⟩, false, 0, false, ⟨1000000⟩, ⟨50⟩⟩
      ⟨50, [], false, false⟩).2.mp hm
    exact absurd h.2 (by decide)

/-- C8: at a telemetry-timer expiry the loop toggles the heartbeat,
re-arms the timer for the fixed 2000 ms period, and its telemetry-task
events are, in order: the heartbeat write, the bracketed protocol-version
transmission, the error-flag word as a single term in its own bracketed
transmission, then the sun-calculator, door and light telemetry hooks. -/
theorem telemetry_task_order (s : CoopState) (inp : LoopInput)
    (hexp : s.telemetryUpdateTimer.expired inp.now = true) :
    (loopStep s inp).1.heartbeat = !s.heartbeat ∧
    (loopStep s inp).1.telemetryUpdateTimer =
      MilliTimer.start inp.now TELEMETRY_UPDATE ∧
    telEvents (loopStep s inp).2 =
      [.heartbeatWrite (!s.heartbeat), .transmissionStart,
       .sendTerm .tag_version, .sendTerm .version01, .transmissionEnd,
       .transmissionStart, .sendTerm .tag_error_flags,
       .sendTerm (.errorFlags s.errorFlags), .transmissionEnd,
       .sunCalcTelemetry, .doorTelemetry, .lightTelemetry] := by
  refine ⟨?_, ?_, ?_⟩
  · rw [loopStep_heartbeat, if_pos hexp]
  · rw [loopStep_telemetryUpdateTimer, if_pos hexp]
  · rw [loopStep_telEvents, if_pos hexp]

/-- Closed instance of `telemetry_task_order` at concrete inputs, the
expiry hypothesis discharged by evaluation. -/
theorem telemetry_task_order_witness :
    (loopStep ⟨true, ⟨1⟩, ⟨false⟩, false, 3, true, ⟨40⟩, ⟨1000000⟩⟩
        ⟨40, [], false, false⟩).1.heartbeat = false ∧
    (loopStep ⟨true, ⟨1⟩, ⟨false⟩, false, 3, true, ⟨40⟩, ⟨1000000⟩⟩
        ⟨40, [], false, false⟩).1.telemetryUpdateTimer =
      MilliTimer.start 40 TELEMETRY_UPDATE ∧
    telEvents (loopStep ⟨true, ⟨1⟩, ⟨false⟩, false, 3, true, ⟨40⟩,
        ⟨1000000⟩⟩ ⟨40, [], false, false⟩).2 =
      [.heartbeatWrite false, .transmissionStart, .sendTerm .tag_version,
       .sendTerm .version01, .transmissionEnd, .transmissionStart,
       .sendTerm .tag_error_flags, .sendTerm (.errorFlags 3),
       .transmissionEnd, .sunCalcTelemetry, .doorTelemetry,
       .lightTelemetry] := by
  have h := telemetry_task_order
    ⟨true, ⟨1⟩, ⟨false⟩, false, 3, true, ⟨40⟩, ⟨1000000⟩⟩
    ⟨40, [], false, false⟩ (by decide)
  simpa using h

/-- C6: at every time-check firing the no-data error is reported with the
value (no fresh input since the last firing); the fresh-input flag is
reset at the firing and, off a firing, is never reset (only latched by
arriving bytes); across two consecutive no-byte firings starting clear
the error is set exactly once, and across two consecutive with-byte
firings starting set it is cleared exactly once. -/
theorem no_data_error_exactly_once (s : CoopState)
    (inp1 inp2 : LoopInput) :
    (s.timeCheckTimer.expired inp1.now = true →
      diagEmissions (loopStep s inp1).2 =
        emissionList (reportError s.errorFlags .GPS_no_data
          (!activeAtFiring s inp1)).2 ∧
      (loopStep s inp1).1.gpsDataStreamActive = false ∧
      bitSet (loopStep s inp1).1.errorFlags .GPS_no_data =
        !activeAtFiring s inp1) ∧
    (s.timeCheckTimer.expired inp1.now = false →
      diagEmissions (loopStep s inp1).2 = [] ∧
      (loopStep s inp1).1.errorFlags = s.errorFlags ∧
      (loopStep s inp1).1.gpsDataStreamActive = activeAtFiring s inp1) ∧
    (s.timeCheckTimer.expired inp1.now = true →
      (loopStep s inp1).1.timeCheckTimer.expired inp2.now = true →
      s.gpsDataStreamActive = false → inp1.gpsBytes = [] →
      inp2.gpsBytes = [] →
      bitSet s.errorFlags .GPS_no_data = false →
      (diagEmissions ((loopStep s inp1).2 ++
          (loopStep (loopStep s inp1).1 inp2).2)).count
        ((.GPS_no_data, true) : telemetryErrorE × Bool) = 1 ∧
      (diagEmissions ((loopStep s inp1).2 ++
          (loopStep (loopStep s inp1).1 inp2).2)).count
        ((.GPS_no_data, false) : telemetryErrorE × Bool) = 0) ∧
    (s.timeCheckTimer.expired inp1.now = true →
      (loopStep s inp1).1.timeCheckTimer.expired inp2.now = true →
      inp1.gpsBytes ≠ [] → inp2.gpsBytes ≠ [] →
      bitSet s.errorFlags .GPS_no_data = true →
      (diagEmissions ((loopStep s inp1).2 ++
          (loopStep (loopStep s inp1).1 inp2).2)).count
        ((.GPS_no_data, false) : telemetryErrorE × Bool) = 1 ∧
      (diagEmissions ((loopStep s inp1).2 ++
          (loopStep (loopStep s inp1).1 inp2).2)).count
        ((.GPS_no_data, true) : telemetryErrorE × Bool) = 0) := by
  refine ⟨fun h1 => ?_, fun h1 => ?_, fun h1 h2 ha hb1 hb2 hbit => ?_,
    fun h1 h2 hb1 hb2 hbit => ?_⟩
  · refine ⟨?_, ?_, ?_⟩
    · rw [loopStep_diagEmissions, if_pos h1]
    · rw [loopStep_gpsDataStreamActive, if_pos h1]
    · rw [loopStep_errorFlags, if_pos h1, bitSet_reportError_self]
  · have h1' : ¬(s.timeCheckTimer.expired inp1.now = true) := by
      rw [h1]; exact Bool.false_ne_true
    refine ⟨?_, ?_, ?_⟩
    · rw [loopStep_diagEmissions, if_neg h1']
    · rw [loopStep_errorFlags, if_neg h1']
    · rw [loopStep_gpsDataStreamActive, if_neg h1']
  · have hact1 : activeAtFiring s inp1 = false := by
      rw [activeAtFiring, ha, hb1]
      rfl
    have hd1 : diagEmissions (loopStep s inp1).2 =
        [(.GPS_no_data, true)] := by
      rw [loopStep_diagEmissions, if_pos h1, hact1]
      exact emissionList_set_trans s.errorFlags .GPS_no_data hbit
    have hs1a : (loopStep s inp1).1.gpsDataStreamActive = false := by
      rw [loopStep_gpsDataStreamActive, if_pos h1]
    have hs1f : bitSet (loopStep s inp1).1.errorFlags .GPS_no_data =
        true := by
      rw [loopStep_errorFlags, if_pos h1, hact1, bitSet_reportError_self]
      rfl
    have hact2 : activeAtFiring (loopStep s inp1).1 inp2 = false := by
      rw [activeAtFiring, hs1a, hb2]
      rfl
    have hd2 : diagEmissions (loopStep (loopStep s inp1).1 inp2).2 =
        [] := by
      rw [loopStep_diagEmissions, if_pos h2, hact2]
      exact emissionList_set_noop _ .GPS_no_data hs1f
    rw [diagEmissions_append, hd1, hd2]
    constructor <;> rfl
  · have hact1 : activeAtFiring s inp1 = true := by
      rw [activeAtFiring]
      cases hby : inp1.gpsBytes with
      | nil => exact absurd hby hb1
      | cons x xs => simp
    have hd1 : diagEmissions (loopStep s inp1).2 =
        [(.GPS_no_data, false)] := by
      rw [loopStep_diagEmissions, if_pos h1, hact1]
      exact emissionList_clear_trans s.errorFlags .GPS_no_data hbit
    have hs1f : bitSet (loopStep s inp1).1.errorFlags .GPS_no_data =
        false := by
      rw [loopStep_errorFlags, if_pos h1, hact1, bitSet_reportError_self]
      rfl
    have hact2 : activeAtFiring (loopStep s inp1).1 inp2 = true := by
      rw [activeAtFiring]
      cases hby : inp2.gpsBytes with
      | nil => exact absurd hby hb2
      | cons x xs => simp
    have hd2 : diagEmissions (loopStep (loopStep s inp1).1 inp2).2 =
        [] := by
      rw [loopStep_diagEmissions, if_pos h2, hact2]
      exact emissionList_clear_noop _ .GPS_no_data hs1f
    rw [diagEmissions_append, hd1, hd2]
    constructor <;> rfl

/-- Closed instance of `no_data_error_exactly_once`: two silent firings
starting clear set the error exactly once; two firings with bytes
starting set clear it exactly once.  All hypotheses discharged by
evaluation. -/
theorem no_data_error_exactly_once_witness :
    ((diagEmissions ((loopStep
        ⟨true, ⟨1⟩, ⟨false⟩, false, 0, false, ⟨1000000⟩, ⟨0⟩⟩
        ⟨0, [], false, false⟩).2 ++
        (loopStep (loopStep
          ⟨true, ⟨1⟩, ⟨false⟩, false, 0, false, ⟨1000000⟩, ⟨0⟩⟩
          ⟨0, [], false, false⟩).1 ⟨5000, [], false, false⟩).2)).count
      ((.GPS_no_data, true) : telemetryErrorE × Bool) = 1 ∧
     (diagEmissions ((loopStep
        ⟨true, ⟨1⟩, ⟨false⟩, false, 0, false, ⟨1000000⟩, ⟨0⟩⟩
        ⟨0, [], false, false⟩).2 ++
        (loopStep (loopStep
          ⟨true, ⟨1⟩, ⟨false⟩, false, 0, false, ⟨1000000⟩, ⟨0⟩⟩
          ⟨0, [], false, false⟩).1 ⟨5000, [], false, false⟩).2)).count
      ((.GPS_no_data, false) : telemetryErrorE × Bool) = 0) ∧
    ((diagEmissions ((loopStep
        ⟨true, ⟨1⟩, ⟨false⟩, false, 1, false, ⟨1000000⟩, ⟨0⟩⟩
        ⟨0, [9], false, false⟩).2 ++
        (loopStep (loopStep
          ⟨true, ⟨1⟩, ⟨false⟩, false, 1, false, ⟨1000000⟩, ⟨0⟩⟩
          ⟨0, [9], false, false⟩).1 ⟨5000, [8], false, false⟩).2)).count
      ((.GPS_no_data, false) : telemetryErrorE × Bool) = 1 ∧
     (diagEmissions ((loopStep
        ⟨true, ⟨1⟩, ⟨false⟩, false, 1, false, ⟨1000000⟩, ⟨0⟩⟩
        ⟨0, [9], false, false⟩).2 ++
        (loopStep (loopStep
          ⟨true, ⟨1⟩, ⟨false⟩, false, 1, false, ⟨1000000⟩, ⟨0⟩⟩
          ⟨0, [9], false, false⟩).1 ⟨5000, [8], false, false⟩).2)).count
      ((.GPS_no_data, true) : telemetryErrorE × Bool) = 0) := by
  constructor
  · exact (no_data_error_exactly_once
      ⟨true, ⟨1⟩, ⟨false⟩, false, 0, false, ⟨1000000⟩, ⟨0⟩⟩
      ⟨0, [], false, false⟩ ⟨5000, [], false, false⟩).2.2.1
      (by decide) (by decide) rfl rfl rfl (by decide)
  · exact (no_data_error_exactly_once
      ⟨true, ⟨1⟩, ⟨false⟩, false, 1, false, ⟨1000000⟩, ⟨0⟩⟩
      ⟨0, [9], false, false⟩ ⟨5000, [8], false, false⟩).2.2.2
      (by decide) (by decide) (by decide) (by decide) (by decide)

/-- C9: when a firing finds no fresh input, the parser's fix data is
cleared (the lock discarded) before the no-data error is raised, and a
following firing with no intervening bytes re-arms the time-check timer
with the short unlocked 5000 ms period. -/
theorem no_data_clears_fix (s : CoopState) (inp : LoopInput)
    (hexp : s.timeCheckTimer.expired inp.now = true)
    (hact : activeAtFiring s inp = false) :
    (loopStep s inp).1.gpsData.m_GPSLocked = false ∧
    fixClearAndDiagEvents (loopStep s inp).2 =
      .gpsDataClear ::
        ((emissionList (reportError s.errorFlags .GPS_no_data
          true).2).map fun p => .emitDiag p.1 p.2) ∧
    (∀ inp2 : LoopInput, inp2.gpsBytes = [] →
      (loopStep s inp).1.timeCheckTimer.expired inp2.now = true →
      (loopStep (loopStep s inp).1 inp2).1.timeCheckTimer =
        MilliTimer.start inp2.now TIME_CHECK_UPDATE_NO_GPS_LOCK) := by
  have hlock : (loopStep s inp).1.gpsData.m_GPSLocked = false := by
    rw [loopStep_gpsLocked, hexp, hact]
    rfl
  refine ⟨hlock, ?_, ?_⟩
  · rw [loopStep_fixClearAndDiag, if_pos hexp, hact]
    rfl
  · intro inp2 hb2 h2
    have hl : lockedAtFiring (loopStep s inp).1 inp2 = false := by
      rw [lockedAtFiring, hb2]
      simpa using hlock
    rw [loopStep_timeCheckTimer, if_pos h2, hl]
    rfl

/-- Closed instance of `no_data_clears_fix`: a locked fix is discarded at
a silent firing and the next firing re-arms with 5000 ms.  All
hypotheses discharged by evaluation. -/
theorem no_data_clears_fix_witness :
    (loopStep ⟨true, ⟨1⟩, ⟨true⟩, false, 0, false, ⟨1000000⟩, ⟨0⟩⟩
        ⟨0, [], false, false⟩).1.gpsData.m_GPSLocked = false ∧
    (loopStep (loopStep
        ⟨true, ⟨1⟩, ⟨true⟩, false, 0, false, ⟨1000000⟩, ⟨0⟩⟩
        ⟨0, [], false, false⟩).1
      ⟨60000, [], false, false⟩).1.timeCheckTimer =
      MilliTimer.start 60000 TIME_CHECK_UPDATE_NO_GPS_LOCK := by
  have h := no_data_clears_fix
    ⟨true, ⟨1⟩, ⟨true⟩, false, 0, false, ⟨1000000⟩, ⟨0⟩⟩
    ⟨0, [], false, false⟩ (by decide) (by decide)
  exact ⟨h.1, h.2.2 ⟨60000, [], false, false⟩ rfl (by decide)⟩

end GaryCooper
